import Mathlib

/-!
Shallow embedding of the sauna controller core (src/sauna_controller.py):
the shared SaunaState record, one iteration of the background control loop
(SaunaController._run_loop, body of the while loop under the lock), the
operator-intent setters, the persistence save/load slice, and the
confirmation-remaining slice of get_state_snapshot.

Python floats (temperatures, epoch timestamps, rates) are modelled as
rationals; Python Optional values as Option; the relay GPIO side effect is
reflected in the heater_on / heater_on_since fields exactly as _set_relay
updates them.  The wall-clock reads time.time() inside one loop iteration
are modelled by the single `now` sampled at the top of the iteration.
-/

/-- Hysteresis band half width in degrees Celsius (HYSTERESIS = 2.5). -/
def HYSTERESIS : ℚ := 5/2

/-- Hard bench-sensor safety limit (MAX_TEMP_C = 90.0). -/
def MAX_TEMP_C : ℚ := 90

/-- Maximum continuous heater-on time (MAX_ON_TIME_SEC = 2*60*60). -/
def MAX_ON_TIME_SEC : ℚ := 7200

/-- Confirmation grace window length (CONFIRMATION_TIMEOUT_SEC = 90). -/
def CONFIRMATION_TIMEOUT_SEC : ℚ := 90

/-- Control loop period (CONTROL_INTERVAL_SEC = 2.0). -/
def CONTROL_INTERVAL_SEC : ℚ := 2

/-- Ceiling-sensor safety limit, local constant of _run_loop
(CEILING_SAFETY_LIMIT_C = 93.3). -/
def CEILING_SAFETY_LIMIT_C : ℚ := 933/10

/-- The SaunaState dataclass: the single shared mutable record. -/
structure SaunaState where
  current_temp : ℚ
  ceiling_temp : Option ℚ
  desired_temp : ℚ
  heater_enabled : Bool
  heater_on : Bool
  heater_on_since : Option ℚ
  time_to_setpoint : Option ℚ
  last_updated : Option ℚ
  use_imperial : Bool
  lockout_active : Bool
  lockout_reason : Option String
  confirmation_required : Bool
  confirmation_deadline : Option ℚ
  scheduled_start_at : Option ℚ
  avg_heatup_rate_c_per_sec : Option ℚ
  price_per_kwh : Option ℚ
  heater_power_kw : Option ℚ
  timer_mode : String
  timer_running : Bool
  timer_start_ts : Option ℚ
  timer_elapsed : ℚ
  timer_duration : Option ℚ
deriving DecidableEq

/-- Field defaults of the SaunaState dataclass (state at process start). -/
def initState : SaunaState :=
  { current_temp := 0
    ceiling_temp := none
    desired_temp := 70
    heater_enabled := false
    heater_on := false
    heater_on_since := none
    time_to_setpoint := none
    last_updated := none
    use_imperial := true
    lockout_active := false
    lockout_reason := none
    confirmation_required := false
    confirmation_deadline := none
    scheduled_start_at := none
    avg_heatup_rate_c_per_sec := none
    price_per_kwh := none
    heater_power_kw := none
    timer_mode := "stopwatch"
    timer_running := false
    timer_start_ts := none
    timer_elapsed := 0
    timer_duration := none }

/-- SaunaController._set_relay: drives the relay and keeps heater_on /
heater_on_since in sync (heater_on_since is stamped with the current time
on an off-to-on transition and cleared when turning off). -/
def setRelay (s : SaunaState) (turnOn : Bool) (now : ℚ) : SaunaState :=
  if turnOn then
    { s with heater_on := true
             heater_on_since :=
               match s.heater_on_since with
               | none => some now
               | some t0 => some t0 }
  else
    { s with heater_on := false, heater_on_since := none }

/-- Ceiling overtemperature trip test of _run_loop:
ceiling_temp is not None and ceiling_temp >= CEILING_SAFETY_LIMIT_C. -/
def ceilingTrip (ceiling : Option ℚ) : Bool :=
  match ceiling with
  | none => false
  | some c => decide (c ≥ CEILING_SAFETY_LIMIT_C)

/-- ceiling_safe condition of the bang-bang block:
ceiling_temp is None or ceiling_temp < CEILING_SAFETY_LIMIT_C - HYSTERESIS. -/
def ceilingSafe (ceiling : Option ℚ) : Bool :=
  match ceiling with
  | none => true
  | some c => decide (c < CEILING_SAFETY_LIMIT_C - HYSTERESIS)

/-- ceiling_too_hot condition of the bang-bang block:
ceiling_temp is not None and ceiling_temp >= CEILING_SAFETY_LIMIT_C - HYSTERESIS. -/
def ceilingTooHot (ceiling : Option ℚ) : Bool :=
  match ceiling with
  | none => false
  | some c => decide (c ≥ CEILING_SAFETY_LIMIT_C - HYSTERESIS)

/-- Reading update at the top of each loop iteration. -/
def updateReadings (s : SaunaState) (now bench : ℚ) (ceiling : Option ℚ) : SaunaState :=
  { s with current_temp := bench, ceiling_temp := ceiling, last_updated := some now }

/-- Bench overtemperature branch of _run_loop: force relay off and enter
lockout with reason "max_temp". -/
def lockoutMaxTemp (s : SaunaState) (now : ℚ) : SaunaState :=
  { setRelay s false now with lockout_active := true, lockout_reason := some "max_temp" }

/-- Ceiling overtemperature branch of _run_loop: force relay off and enter
lockout with reason "ceiling_overtemp". -/
def lockoutCeilingOvertemp (s : SaunaState) (now : ℚ) : SaunaState :=
  { setRelay s false now with lockout_active := true, lockout_reason := some "ceiling_overtemp" }

/-- required_heat_time computation of the one-shot scheduler:
max(desired - bench, 0) / rate when rate > 0, else 0. -/
def requiredHeatTime (desired bench rate : ℚ) : ℚ :=
  if rate > 0 then max (desired - bench) 0 / rate else 0

/-- One-shot scheduler block of _run_loop.  Returns the updated state and
the updated local `enabled` variable. -/
def schedulerPhase (s : SaunaState) (now bench desired : ℚ) (enabled : Bool) :
    SaunaState × Bool :=
  match s.scheduled_start_at, s.avg_heatup_rate_c_per_sec with
  | some tgt, some rate =>
      if s.lockout_active = false then
        if tgt - now ≤ requiredHeatTime desired bench rate then
          ({ s with heater_enabled := true, scheduled_start_at := none }, true)
        else (s, enabled)
      else (s, enabled)
  | _, _ => (s, enabled)

/-- Max-on-time block of _run_loop: open the confirmation window when the
heater has been on continuously for MAX_ON_TIME_SEC. -/
def maxOnTimePhase (s : SaunaState) (now : ℚ) : SaunaState :=
  match s.heater_on_since with
  | some t0 =>
      if now - t0 ≥ MAX_ON_TIME_SEC ∧ s.confirmation_required = false ∧
          s.lockout_active = false then
        { s with confirmation_required := true
                 confirmation_deadline := some (now + CONFIRMATION_TIMEOUT_SEC) }
      else s
  | none => s

/-- Confirmation-window expiry block of _run_loop: when the window has
expired without user action, force the relay off, disable the heater,
clear the confirmation fields and enter lockout with reason "max_on_time". -/
def expiryPhase (s : SaunaState) (now : ℚ) : SaunaState :=
  match s.confirmation_deadline with
  | some d =>
      if s.confirmation_required = true ∧ now ≥ d then
        { setRelay s false now with
            heater_enabled := false
            confirmation_required := false
            confirmation_deadline := none
            lockout_active := true
            lockout_reason := some "max_on_time" }
      else s
  | none => s

/-- Dual-sensor bang-bang block of _run_loop, including the final else
branch that forces the relay off when locked out or not enabled. -/
def bangBangPhase (s : SaunaState) (now bench : ℚ) (ceiling : Option ℚ)
    (desired : ℚ) (enabled : Bool) : SaunaState :=
  if s.lockout_active = false ∧ enabled = true then
    if bench < desired - HYSTERESIS ∧ ceilingSafe ceiling = true then
      setRelay s true now
    else if bench > desired + HYSTERESIS ∨ ceilingTooHot ceiling = true then
      setRelay s false now
    else s
  else
    if s.heater_on = true then setRelay s false now else s

/-- Time-to-setpoint latch and average heat-up rate EMA block of _run_loop
(runs every iteration, after the safety chain). -/
def ratePhase (s : SaunaState) (now bench desired : ℚ) : SaunaState :=
  match s.heater_on_since with
  | some t0 =>
      if bench ≥ desired then
        if now - t0 > 0 then
          let s1 := if s.time_to_setpoint = none
                    then { s with time_to_setpoint := some (now - t0) } else s
          let delta0 := max (desired - s1.current_temp + (bench - desired)) 0
          let delta_c := if delta0 ≤ 0 then desired - (bench - 5) else delta0
          if delta_c > 0 then
            match s1.avg_heatup_rate_c_per_sec with
            | none =>
                { s1 with avg_heatup_rate_c_per_sec := some (delta_c / (now - t0)) }
            | some old_rate =>
                let newAvg := 3/10 * (delta_c / (now - t0)) + (1 - 3/10) * old_rate
                { s1 with avg_heatup_rate_c_per_sec := some newAvg }
          else s1
        else s
      else s
  | none => s

/-- Timer accrual block at the end of each loop iteration. -/
def timerPhase (s : SaunaState) : SaunaState :=
  if s.timer_running = true ∧ s.timer_start_ts.isSome = true then
    { s with timer_elapsed := s.timer_elapsed + CONTROL_INTERVAL_SEC }
  else s

/-- One iteration of SaunaController._run_loop (the body of the while loop,
under the lock), given the freshly sampled time and sensor readings. -/
def runLoopIter (s : SaunaState) (now bench : ℚ) (ceiling : Option ℚ) : SaunaState :=
  let s0 := updateReadings s now bench ceiling
  let desired := s0.desired_temp
  let enabled := s0.heater_enabled
  let s1 :=
    if bench ≥ MAX_TEMP_C then lockoutMaxTemp s0 now
    else if ceilingTrip ceiling = true then lockoutCeilingOvertemp s0 now
    else
      let p := schedulerPhase s0 now bench desired enabled
      bangBangPhase (expiryPhase (maxOnTimePhase p.1 now) now) now bench ceiling
        desired p.2
  timerPhase (ratePhase s1 now bench desired)

/-- SaunaController.set_heater_enabled.  Disabling clears all lockout and
confirmation fields and immediately turns the relay off. -/
def setHeaterEnabled (s : SaunaState) (enabled : Bool) (now : ℚ) : SaunaState :=
  let s1 := { s with heater_enabled := enabled }
  if enabled = true then s1
  else
    setRelay
      { s1 with lockout_active := false
                lockout_reason := none
                confirmation_required := false
                confirmation_deadline := none }
      false now

/-- SaunaController.set_desired_temperature: convert from display units,
clamp to MAX_TEMP_C, reset the time-to-setpoint latch. -/
def setDesiredTemperature (s : SaunaState) (temp : ℚ) : SaunaState :=
  let desired_c := if s.use_imperial = true then (temp - 32) * 5 / 9 else temp
  let clamped := if desired_c > MAX_TEMP_C then MAX_TEMP_C else desired_c
  { s with desired_temp := clamped, time_to_setpoint := none }

/-- SaunaController.toggle_units. -/
def toggleUnits (s : SaunaState) : SaunaState :=
  { s with use_imperial := !s.use_imperial }

/-- SaunaController.set_schedule. -/
def setSchedule (s : SaunaState) (scheduledEpoch : Option ℚ) : SaunaState :=
  { s with scheduled_start_at := scheduledEpoch }

/-- SaunaController.set_cost_config. -/
def setCostConfig (s : SaunaState) (price power : Option ℚ) : SaunaState :=
  { s with price_per_kwh := price, heater_power_kw := power }

/-- SaunaController.timer_set_mode. -/
def timerSetMode (s : SaunaState) (mode : String) : SaunaState :=
  if mode = "stopwatch" ∨ mode = "timer" then { s with timer_mode := mode } else s

/-- SaunaController.timer_set_duration_minutes. -/
def timerSetDurationMinutes (s : SaunaState) (minutes : ℤ) : SaunaState :=
  if minutes ≤ 0 then s else { s with timer_duration := some ((minutes : ℚ) * 60) }

/-- SaunaController.timer_start. -/
def timerStart (s : SaunaState) (now : ℚ) : SaunaState :=
  if s.timer_running = false then
    { s with timer_running := true, timer_start_ts := some now }
  else s

/-- SaunaController.timer_stop. -/
def timerStop (s : SaunaState) (now : ℚ) : SaunaState :=
  let s1 :=
    match s.timer_start_ts with
    | some t0 =>
        if s.timer_running = true then
          { s with timer_elapsed := s.timer_elapsed + (now - t0) }
        else s
    | none => s
  { s1 with timer_running := false, timer_start_ts := none }

/-- SaunaController.timer_reset. -/
def timerReset (s : SaunaState) : SaunaState :=
  { s with timer_running := false, timer_start_ts := none, timer_elapsed := 0 }

/-- Every state-mutating operation of the controller: one control-loop poll
or one operator-intent setter call. -/
inductive Op where
  | pollOp (now bench : ℚ) (ceiling : Option ℚ)
  | setHeaterEnabledOp (enabled : Bool) (now : ℚ)
  | setDesiredTemperatureOp (temp : ℚ)
  | toggleUnitsOp
  | setScheduleOp (scheduledEpoch : Option ℚ)
  | setCostConfigOp (price power : Option ℚ)
  | timerSetModeOp (mode : String)
  | timerSetDurationOp (minutes : ℤ)
  | timerStartOp (now : ℚ)
  | timerStopOp (now : ℚ)
  | timerResetOp

/-- Apply one operation to the shared state. -/
def applyOp (op : Op) (s : SaunaState) : SaunaState :=
  match op with
  | .pollOp now bench ceiling => runLoopIter s now bench ceiling
  | .setHeaterEnabledOp enabled now => setHeaterEnabled s enabled now
  | .setDesiredTemperatureOp temp => setDesiredTemperature s temp
  | .toggleUnitsOp => toggleUnits s
  | .setScheduleOp t => setSchedule s t
  | .setCostConfigOp p q => setCostConfig s p q
  | .timerSetModeOp m => timerSetMode s m
  | .timerSetDurationOp m => timerSetDurationMinutes s m
  | .timerStartOp now => timerStart s now
  | .timerStopOp now => timerStop s now
  | .timerResetOp => timerReset s

/-- Run a sequence of control-loop polls, each given as
(now, bench_temp, ceiling_temp). -/
def foldPolls (s : SaunaState) (polls : List (ℚ × ℚ × Option ℚ)) : SaunaState :=
  polls.foldl (fun acc p => runLoopIter acc p.1 p.2.1 p.2.2) s

/-- Values appearing in the persisted JSON dictionary. -/
inductive PersistedValue where
  | pvRat (q : Option ℚ)
  | pvBool (b : Bool)
  | pvStr (str : String)

/-- SaunaController._save_state_to_disk_locked: the exact key/value pairs
of the dictionary written to the JSON file, in source order. -/
def saveStateToDisk (s : SaunaState) : List (String × PersistedValue) :=
  [("desired_temp", .pvRat (some s.desired_temp)),
   ("heater_enabled", .pvBool s.heater_enabled),
   ("use_imperial", .pvBool s.use_imperial),
   ("scheduled_start_at", .pvRat s.scheduled_start_at),
   ("avg_heatup_rate_c_per_sec", .pvRat s.avg_heatup_rate_c_per_sec),
   ("price_per_kwh", .pvRat s.price_per_kwh),
   ("heater_power_kw", .pvRat s.heater_power_kw),
   ("timer_mode", .pvStr s.timer_mode),
   ("timer_running", .pvBool s.timer_running),
   ("timer_elapsed", .pvRat (some s.timer_elapsed)),
   ("timer_duration", .pvRat s.timer_duration)]

/-- Contents of a parsed sauna_state.json file, as read by
_load_state_from_disk: each field is the value found under the given key
(none = key absent).  The four safety keys are included so that a file
that does contain them can be expressed; the loader never reads them. -/
structure PersistedData where
  desired_temp : Option ℚ
  heater_enabled : Option Bool
  use_imperial : Option Bool
  scheduled_start_at : Option ℚ
  avg_heatup_rate_c_per_sec : Option ℚ
  price_per_kwh : Option ℚ
  heater_power_kw : Option ℚ
  timer_mode : Option String
  timer_running : Option Bool
  timer_elapsed : Option ℚ
  timer_duration : Option (Option ℚ)
  lockout_active : Option Bool
  lockout_reason : Option String
  confirmation_required : Option Bool
  confirmation_deadline : Option ℚ

/-- SaunaController._load_state_from_disk: none models a missing or
unparseable file (early return).  The safety flags are unconditionally
reset to safe values. -/
def loadStateFromDisk (s : SaunaState) (file : Option PersistedData) : SaunaState :=
  match file with
  | none => s
  | some data =>
      { s with
        desired_temp := data.desired_temp.getD s.desired_temp
        heater_enabled := data.heater_enabled.getD s.heater_enabled
        use_imperial := data.use_imperial.getD s.use_imperial
        scheduled_start_at := data.scheduled_start_at
        avg_heatup_rate_c_per_sec := data.avg_heatup_rate_c_per_sec
        price_per_kwh := data.price_per_kwh
        heater_power_kw := data.heater_power_kw
        timer_mode := data.timer_mode.getD s.timer_mode
        timer_running := data.timer_running.getD s.timer_running
        timer_elapsed := data.timer_elapsed.getD s.timer_elapsed
        timer_duration := data.timer_duration.getD s.timer_duration
        lockout_active := false
        lockout_reason := none
        confirmation_required := false
        confirmation_deadline := none }

/-- Python int() conversion on a float: truncation toward zero. -/
def pyInt (q : ℚ) : ℤ := if 0 ≤ q then q.floor else q.ceil

/-- The confirmation_remaining computation of get_state_snapshot:
None unless confirmation_required is truthy and confirmation_deadline is
truthy (a Python float is falsy when it is 0.0) and the remaining time is
strictly positive; otherwise int(deadline - now). -/
def confirmationRemaining (s : SaunaState) (now : ℚ) : Option ℤ :=
  match s.confirmation_deadline with
  | some d =>
      if s.confirmation_required = true ∧ d ≠ 0 then
        if d - now > 0 then some (pyInt (d - now)) else none
      else none
  | none => none

/-- An expired-confirmation-window state used as a concrete test input. -/
def expiredConfState : SaunaState :=
  { initState with confirmation_required := true, confirmation_deadline := some 10 }

/-- A state in which the heater has been on continuously since time 0,
used as a concrete test input. -/
def longOnState : SaunaState :=
  { initState with heater_enabled := true, heater_on := true, heater_on_since := some 0 }

/-- A default state with the heater enabled, used as a concrete test input. -/
def enabledState : SaunaState := { initState with heater_enabled := true }

/-- Reachable trace, step 1: operator enables the heater, first poll turns
the relay on (bench 50 below 70 - HYSTERESIS). -/
def stateA : SaunaState := runLoopIter (setHeaterEnabled initState true 0) 0 50 none

/-- Reachable trace, step 2: poll at t=10 with bench at setpoint latches
time_to_setpoint and a first heat-up rate estimate. -/
def stateB : SaunaState := runLoopIter stateA 10 70 none

/-- Reachable trace, step 3: poll at t=7200 opens the confirmation window
(heater continuously on since t=0). -/
def stateC : SaunaState := runLoopIter stateB 7200 70 none

/-- Reachable trace, step 4: bench jumps to 91 while the confirmation
window is pending; the bench overtemperature trips. -/
def stateD : SaunaState := runLoopIter stateC 7202 91 none

/-- Reachable trace, step 3b: with the confirmation window already open,
the operator sets a (past) one-shot schedule. -/
def stateP : SaunaState := setSchedule stateC (some 7000)

/-- Reachable trace, step 4b: poll at t=7290, the deadline instant.  The
scheduler fires (7000 - 7290 is at most the required heat time) and sets
heater_enabled, but the confirmation expiry on the same poll clears it
again and locks out. -/
def stateQ : SaunaState := runLoopIter stateP 7290 70 none

/-- A state with a pending schedule and a known heat-up rate, used as a
concrete test input. -/
def scheduledState : SaunaState :=
  { initState with scheduled_start_at := some 100, avg_heatup_rate_c_per_sec := some 1 }

/-! Frame and characterization lemmas for the individual blocks of the loop. -/

theorem setRelay_frame (s : SaunaState) (b : Bool) (now : ℚ) :
    (setRelay s b now).lockout_active = s.lockout_active ∧
    (setRelay s b now).lockout_reason = s.lockout_reason ∧
    (setRelay s b now).confirmation_required = s.confirmation_required ∧
    (setRelay s b now).confirmation_deadline = s.confirmation_deadline ∧
    (setRelay s b now).heater_enabled = s.heater_enabled ∧
    (setRelay s b now).scheduled_start_at = s.scheduled_start_at ∧
    (setRelay s b now).desired_temp = s.desired_temp ∧
    (setRelay s b now).current_temp = s.current_temp ∧
    (setRelay s b now).time_to_setpoint = s.time_to_setpoint ∧
    (setRelay s b now).avg_heatup_rate_c_per_sec = s.avg_heatup_rate_c_per_sec := by
  unfold setRelay; cases b <;> simp

theorem setRelay_false (s : SaunaState) (now : ℚ) :
    (setRelay s false now).heater_on = false ∧
    (setRelay s false now).heater_on_since = none := by
  unfold setRelay; simp

theorem setRelay_true (s : SaunaState) (now : ℚ) :
    (setRelay s true now).heater_on = true := by
  unfold setRelay; simp

theorem lockoutMaxTemp_spec (s : SaunaState) (now : ℚ) :
    (lockoutMaxTemp s now).heater_on = false ∧
    (lockoutMaxTemp s now).heater_on_since = none ∧
    (lockoutMaxTemp s now).lockout_active = true ∧
    (lockoutMaxTemp s now).lockout_reason = some "max_temp" ∧
    (lockoutMaxTemp s now).confirmation_required = s.confirmation_required ∧
    (lockoutMaxTemp s now).confirmation_deadline = s.confirmation_deadline ∧
    (lockoutMaxTemp s now).heater_enabled = s.heater_enabled ∧
    (lockoutMaxTemp s now).scheduled_start_at = s.scheduled_start_at := by
  unfold lockoutMaxTemp setRelay; simp

theorem lockoutCeilingOvertemp_spec (s : SaunaState) (now : ℚ) :
    (lockoutCeilingOvertemp s now).heater_on = false ∧
    (lockoutCeilingOvertemp s now).heater_on_since = none ∧
    (lockoutCeilingOvertemp s now).lockout_active = true ∧
    (lockoutCeilingOvertemp s now).lockout_reason = some "ceiling_overtemp" ∧
    (lockoutCeilingOvertemp s now).confirmation_required = s.confirmation_required ∧
    (lockoutCeilingOvertemp s now).confirmation_deadline = s.confirmation_deadline ∧
    (lockoutCeilingOvertemp s now).heater_enabled = s.heater_enabled ∧
    (lockoutCeilingOvertemp s now).scheduled_start_at = s.scheduled_start_at := by
  unfold lockoutCeilingOvertemp setRelay; simp

theorem schedulerPhase_fst_frame (s : SaunaState) (now bench desired : ℚ) (e : Bool) :
    (schedulerPhase s now bench desired e).1.lockout_active = s.lockout_active ∧
    (schedulerPhase s now bench desired e).1.lockout_reason = s.lockout_reason ∧
    (schedulerPhase s now bench desired e).1.confirmation_required = s.confirmation_required ∧
    (schedulerPhase s now bench desired e).1.confirmation_deadline = s.confirmation_deadline ∧
    (schedulerPhase s now bench desired e).1.heater_on = s.heater_on ∧
    (schedulerPhase s now bench desired e).1.heater_on_since = s.heater_on_since ∧
    (schedulerPhase s now bench desired e).1.desired_temp = s.desired_temp ∧
    (schedulerPhase s now bench desired e).1.current_temp = s.current_temp ∧
    (schedulerPhase s now bench desired e).1.time_to_setpoint = s.time_to_setpoint ∧
    (schedulerPhase s now bench desired e).1.avg_heatup_rate_c_per_sec = s.avg_heatup_rate_c_per_sec := by
  unfold schedulerPhase
  rcases hs : s.scheduled_start_at with _ | tgt <;>
    rcases hr : s.avg_heatup_rate_c_per_sec with _ | rate <;>
      simp [hs, hr] <;> split_ifs <;> simp [hs, hr]

theorem schedulerPhase_snd_true (s : SaunaState) (now bench desired : ℚ) :
    (schedulerPhase s now bench desired true).2 = true := by
  unfold schedulerPhase
  rcases hs : s.scheduled_start_at with _ | tgt <;>
    rcases hr : s.avg_heatup_rate_c_per_sec with _ | rate <;>
      simp [hs, hr] <;> split_ifs <;> simp

theorem schedulerPhase_fire (s : SaunaState) (now bench desired : ℚ) (e : Bool)
    (tgt rate : ℚ)
    (h1 : s.lockout_active = false)
    (h2 : s.scheduled_start_at = some tgt)
    (h3 : s.avg_heatup_rate_c_per_sec = some rate)
    (h4 : tgt - now ≤ requiredHeatTime desired bench rate) :
    schedulerPhase s now bench desired e =
      ({ s with heater_enabled := true, scheduled_start_at := none }, true) := by
  unfold schedulerPhase
  simp [h1, h2, h3, h4]

theorem schedulerPhase_sched_none (s : SaunaState) (now bench desired : ℚ) (e : Bool)
    (h : s.scheduled_start_at = none) :
    schedulerPhase s now bench desired e = (s, e) := by
  unfold schedulerPhase; simp [h]

theorem maxOnTimePhase_frame (s : SaunaState) (now : ℚ) :
    (maxOnTimePhase s now).heater_on = s.heater_on ∧
    (maxOnTimePhase s now).heater_on_since = s.heater_on_since ∧
    (maxOnTimePhase s now).heater_enabled = s.heater_enabled ∧
    (maxOnTimePhase s now).lockout_active = s.lockout_active ∧
    (maxOnTimePhase s now).lockout_reason = s.lockout_reason ∧
    (maxOnTimePhase s now).scheduled_start_at = s.scheduled_start_at ∧
    (maxOnTimePhase s now).desired_temp = s.desired_temp ∧
    (maxOnTimePhase s now).current_temp = s.current_temp ∧
    (maxOnTimePhase s now).time_to_setpoint = s.time_to_setpoint ∧
    (maxOnTimePhase s now).avg_heatup_rate_c_per_sec = s.avg_heatup_rate_c_per_sec := by
  unfold maxOnTimePhase
  rcases hs : s.heater_on_since with _ | t0 <;> simp [hs] <;> split_ifs <;> simp [hs]

theorem maxOnTimePhase_fire (s : SaunaState) (now t0 : ℚ)
    (h1 : s.heater_on_since = some t0)
    (h2 : now - t0 ≥ MAX_ON_TIME_SEC)
    (h3 : s.confirmation_required = false)
    (h4 : s.lockout_active = false) :
    maxOnTimePhase s now =
      { s with confirmation_required := true
               confirmation_deadline := some (now + CONFIRMATION_TIMEOUT_SEC) } := by
  unfold maxOnTimePhase; simp [h1, h2, h3, h4]

theorem maxOnTimePhase_confreq (s : SaunaState) (now : ℚ)
    (h : s.confirmation_required = true) :
    maxOnTimePhase s now = s := by
  unfold maxOnTimePhase
  rcases hs : s.heater_on_since with _ | t0 <;> simp [hs, h]

theorem maxOnTimePhase_locked (s : SaunaState) (now : ℚ)
    (h : s.lockout_active = true) :
    maxOnTimePhase s now = s := by
  unfold maxOnTimePhase
  rcases hs : s.heater_on_since with _ | t0 <;> simp [hs, h]

theorem maxOnTimePhase_nofire (s : SaunaState) (now : ℚ)
    (h : ∀ t0, s.heater_on_since = some t0 → s.confirmation_required = false →
      ¬ now - t0 ≥ MAX_ON_TIME_SEC) :
    maxOnTimePhase s now = s := by
  unfold maxOnTimePhase
  rcases hs : s.heater_on_since with _ | t0
  · simp
  · rcases hc : s.confirmation_required with _ | _
    · simp [h t0 hs hc]
    · simp [hc]

theorem maxOnTimePhase_conf_cases (s : SaunaState) (now : ℚ) :
    ((maxOnTimePhase s now).confirmation_required = s.confirmation_required ∧
      (maxOnTimePhase s now).confirmation_deadline = s.confirmation_deadline) ∨
    ((maxOnTimePhase s now).confirmation_required = true ∧
      (maxOnTimePhase s now).confirmation_deadline =
        some (now + CONFIRMATION_TIMEOUT_SEC)) := by
  unfold maxOnTimePhase
  rcases hs : s.heater_on_since with _ | t0
  · left; simp
  · by_cases hcond : now - t0 ≥ MAX_ON_TIME_SEC ∧ s.confirmation_required = false ∧
      s.lockout_active = false
    · right; simp [hcond]
    · left; simp [hcond]

theorem expiryPhase_fire (s : SaunaState) (now d : ℚ)
    (h1 : s.confirmation_required = true)
    (h2 : s.confirmation_deadline = some d)
    (h3 : now ≥ d) :
    (expiryPhase s now).heater_on = false ∧
    (expiryPhase s now).heater_on_since = none ∧
    (expiryPhase s now).heater_enabled = false ∧
    (expiryPhase s now).confirmation_required = false ∧
    (expiryPhase s now).confirmation_deadline = none ∧
    (expiryPhase s now).lockout_active = true ∧
    (expiryPhase s now).lockout_reason = some "max_on_time" ∧
    (expiryPhase s now).scheduled_start_at = s.scheduled_start_at ∧
    (expiryPhase s now).desired_temp = s.desired_temp ∧
    (expiryPhase s now).current_temp = s.current_temp := by
  unfold expiryPhase setRelay; simp [h1, h2, h3]

theorem expiryPhase_nofire (s : SaunaState) (now : ℚ)
    (h : ∀ d, s.confirmation_deadline = some d → s.confirmation_required = true →
      ¬ now ≥ d) :
    expiryPhase s now = s := by
  unfold expiryPhase
  rcases hd : s.confirmation_deadline with _ | d
  · simp
  · rcases hc : s.confirmation_required with _ | _
    · simp [hc]
    · simp [hc, h d hd hc]

theorem expiryPhase_lockout_mono (s : SaunaState) (now : ℚ)
    (h : s.lockout_active = true) :
    (expiryPhase s now).lockout_active = true := by
  unfold expiryPhase setRelay
  rcases hd : s.confirmation_deadline with _ | d <;> simp [h] <;> split_ifs <;> simp [h]

theorem expiryPhase_frame (s : SaunaState) (now : ℚ) :
    (expiryPhase s now).scheduled_start_at = s.scheduled_start_at ∧
    (expiryPhase s now).desired_temp = s.desired_temp ∧
    (expiryPhase s now).current_temp = s.current_temp ∧
    (expiryPhase s now).time_to_setpoint = s.time_to_setpoint ∧
    (expiryPhase s now).avg_heatup_rate_c_per_sec = s.avg_heatup_rate_c_per_sec := by
  unfold expiryPhase setRelay
  rcases hd : s.confirmation_deadline with _ | d <;> simp <;> split_ifs <;> simp

theorem bangBangPhase_frame (s : SaunaState) (now bench : ℚ) (ceiling : Option ℚ)
    (desired : ℚ) (e : Bool) :
    (bangBangPhase s now bench ceiling desired e).lockout_active = s.lockout_active ∧
    (bangBangPhase s now bench ceiling desired e).lockout_reason = s.lockout_reason ∧
    (bangBangPhase s now bench ceiling desired e).confirmation_required = s.confirmation_required ∧
    (bangBangPhase s now bench ceiling desired e).confirmation_deadline = s.confirmation_deadline ∧
    (bangBangPhase s now bench ceiling desired e).heater_enabled = s.heater_enabled ∧
    (bangBangPhase s now bench ceiling desired e).scheduled_start_at = s.scheduled_start_at ∧
    (bangBangPhase s now bench ceiling desired e).desired_temp = s.desired_temp ∧
    (bangBangPhase s now bench ceiling desired e).current_temp = s.current_temp ∧
    (bangBangPhase s now bench ceiling desired e).time_to_setpoint = s.time_to_setpoint ∧
    (bangBangPhase s now bench ceiling desired e).avg_heatup_rate_c_per_sec = s.avg_heatup_rate_c_per_sec := by
  unfold bangBangPhase setRelay
  split_ifs <;> simp

theorem bangBangPhase_inactive (s : SaunaState) (now bench : ℚ) (ceiling : Option ℚ)
    (desired : ℚ) (e : Bool)
    (h : s.lockout_active = true ∨ e = false) :
    (bangBangPhase s now bench ceiling desired e).heater_on = false ∧
    (bangBangPhase s now bench ceiling desired e).heater_on_since =
      (if s.heater_on = true then none else s.heater_on_since) := by
  unfold bangBangPhase setRelay
  have hcond : ¬ (s.lockout_active = false ∧ e = true) := by
    rcases h with h | h <;> simp [h]
  rw [if_neg hcond]
  split_ifs with hh <;> simp_all

theorem bangBangPhase_active (s : SaunaState) (now bench : ℚ) (ceiling : Option ℚ)
    (desired : ℚ)
    (h1 : s.lockout_active = false) :
    (bangBangPhase s now bench ceiling desired true).heater_on =
      (if bench < desired - HYSTERESIS ∧ ceilingSafe ceiling = true then true
       else if bench > desired + HYSTERESIS ∨ ceilingTooHot ceiling = true then false
       else s.heater_on) := by
  unfold bangBangPhase setRelay
  rw [if_pos (by simp [h1])]
  split_ifs <;> simp_all

theorem ratePhase_frame (s : SaunaState) (now bench desired : ℚ) :
    (ratePhase s now bench desired).heater_on = s.heater_on ∧
    (ratePhase s now bench desired).heater_on_since = s.heater_on_since ∧
    (ratePhase s now bench desired).heater_enabled = s.heater_enabled ∧
    (ratePhase s now bench desired).lockout_active = s.lockout_active ∧
    (ratePhase s now bench desired).lockout_reason = s.lockout_reason ∧
    (ratePhase s now bench desired).confirmation_required = s.confirmation_required ∧
    (ratePhase s now bench desired).confirmation_deadline = s.confirmation_deadline ∧
    (ratePhase s now bench desired).scheduled_start_at = s.scheduled_start_at ∧
    (ratePhase s now bench desired).desired_temp = s.desired_temp ∧
    (ratePhase s now bench desired).current_temp = s.current_temp := by
  unfold ratePhase
  rcases hs : s.heater_on_since with _ | t0
  · simp [hs]
  · rcases hr : s.avg_heatup_rate_c_per_sec with _ | old_rate <;>
      rcases ht : s.time_to_setpoint with _ | tts <;>
        simp only [hs, hr, ht] <;> split_ifs <;> simp_all

theorem ratePhase_since_none (s : SaunaState) (now bench desired : ℚ)
    (h : s.heater_on_since = none) :
    ratePhase s now bench desired = s := by
  unfold ratePhase; rw [h]

theorem timerPhase_frame (s : SaunaState) :
    (timerPhase s).heater_on = s.heater_on ∧
    (timerPhase s).heater_on_since = s.heater_on_since ∧
    (timerPhase s).heater_enabled = s.heater_enabled ∧
    (timerPhase s).lockout_active = s.lockout_active ∧
    (timerPhase s).lockout_reason = s.lockout_reason ∧
    (timerPhase s).confirmation_required = s.confirmation_required ∧
    (timerPhase s).confirmation_deadline = s.confirmation_deadline ∧
    (timerPhase s).scheduled_start_at = s.scheduled_start_at ∧
    (timerPhase s).desired_temp = s.desired_temp ∧
    (timerPhase s).current_temp = s.current_temp ∧
    (timerPhase s).time_to_setpoint = s.time_to_setpoint ∧
    (timerPhase s).avg_heatup_rate_c_per_sec = s.avg_heatup_rate_c_per_sec := by
  unfold timerPhase
  split_ifs <;> simp

theorem runLoopIter_trip_bench (s : SaunaState) (now bench : ℚ) (ceiling : Option ℚ)
    (h : bench ≥ MAX_TEMP_C) :
    runLoopIter s now bench ceiling =
      timerPhase (lockoutMaxTemp (updateReadings s now bench ceiling) now) := by
  unfold runLoopIter
  simp only [if_pos h]
  rw [ratePhase_since_none _ _ _ _ (lockoutMaxTemp_spec _ _).2.1]

theorem runLoopIter_trip_ceiling (s : SaunaState) (now bench : ℚ) (ceiling : Option ℚ)
    (h1 : ¬ bench ≥ MAX_TEMP_C) (h2 : ceilingTrip ceiling = true) :
    runLoopIter s now bench ceiling =
      timerPhase (lockoutCeilingOvertemp (updateReadings s now bench ceiling) now) := by
  unfold runLoopIter
  simp only [if_neg h1, if_pos h2]
  rw [ratePhase_since_none _ _ _ _ (lockoutCeilingOvertemp_spec _ _).2.1]

theorem runLoopIter_normal (s : SaunaState) (now bench : ℚ) (ceiling : Option ℚ)
    (h1 : ¬ bench ≥ MAX_TEMP_C) (h2 : ceilingTrip ceiling = false) :
    runLoopIter s now bench ceiling =
      timerPhase (ratePhase
        (bangBangPhase
          (expiryPhase
            (maxOnTimePhase
              (schedulerPhase (updateReadings s now bench ceiling) now bench
                s.desired_temp s.heater_enabled).1 now) now)
          now bench ceiling s.desired_temp
          (schedulerPhase (updateReadings s now bench ceiling) now bench
            s.desired_temp s.heater_enabled).2)
        now bench s.desired_temp) := by
  unfold runLoopIter
  simp only [if_neg h1,
    if_neg (show ¬ ceilingTrip ceiling = true by simp [h2])]
  rfl

/-- C1: on every poll, a bench reading at or above MAX_TEMP_C forces the
relay off and enters lockout with reason "max_temp", with no hypothesis on
heater_enabled or any other field (so the bench check wins even when the
ceiling is also over its limit); otherwise a present ceiling reading at or
above CEILING_SAFETY_LIMIT_C forces the relay off and enters lockout with
reason "ceiling_overtemp". -/
theorem claim_C1_overtemp_lockout (s : SaunaState) (now bench : ℚ)
    (ceiling : Option ℚ) :
    (bench ≥ MAX_TEMP_C →
      (runLoopIter s now bench ceiling).heater_on = false ∧
      (runLoopIter s now bench ceiling).lockout_active = true ∧
      (runLoopIter s now bench ceiling).lockout_reason = some "max_temp") ∧
    (bench < MAX_TEMP_C → ∀ c, ceiling = some c → c ≥ CEILING_SAFETY_LIMIT_C →
      (runLoopIter s now bench ceiling).heater_on = false ∧
      (runLoopIter s now bench ceiling).lockout_active = true ∧
      (runLoopIter s now bench ceiling).lockout_reason = some "ceiling_overtemp") := by
  constructor
  · intro h
    rw [runLoopIter_trip_bench s now bench ceiling h]
    obtain ⟨f1, f2, f3, f4, f5, f6, f7, f8, f9, f10, f11, f12⟩ :=
      timerPhase_frame (lockoutMaxTemp (updateReadings s now bench ceiling) now)
    obtain ⟨g1, g2, g3, g4, g5, g6, g7, g8⟩ :=
      lockoutMaxTemp_spec (updateReadings s now bench ceiling) now
    exact ⟨by rw [f1, g1], by rw [f4, g3], by rw [f5, g4]⟩
  · intro h c hc hcl
    have htrip : ceilingTrip ceiling = true := by
      rw [hc]; unfold ceilingTrip; simp [hcl]
    rw [runLoopIter_trip_ceiling s now bench ceiling (not_le.mpr h) htrip]
    obtain ⟨f1, f2, f3, f4, f5, f6, f7, f8, f9, f10, f11, f12⟩ :=
      timerPhase_frame (lockoutCeilingOvertemp (updateReadings s now bench ceiling) now)
    obtain ⟨g1, g2, g3, g4, g5, g6, g7, g8⟩ :=
      lockoutCeilingOvertemp_spec (updateReadings s now bench ceiling) now
    exact ⟨by rw [f1, g1], by rw [f4, g3], by rw [f5, g4]⟩

/-- C1 witness: concrete polls exercising both overtemperature branches. -/
theorem claim_C1_overtemp_lockout_witness :
    ((91 : ℚ) ≥ MAX_TEMP_C ∧
      (runLoopIter initState 0 91 none).lockout_reason = some "max_temp") ∧
    ((50 : ℚ) < MAX_TEMP_C ∧ (94 : ℚ) ≥ CEILING_SAFETY_LIMIT_C ∧
      (runLoopIter initState 0 50 (some 94)).lockout_reason = some "ceiling_overtemp") := by
  refine ⟨⟨by norm_num [MAX_TEMP_C], ?_⟩, by norm_num [MAX_TEMP_C], by norm_num [CEILING_SAFETY_LIMIT_C], ?_⟩
  · exact ((claim_C1_overtemp_lockout initState 0 91 none).1 (by norm_num [MAX_TEMP_C])).2.2
  · exact ((claim_C1_overtemp_lockout initState 0 50 (some 94)).2
      (by norm_num [MAX_TEMP_C]) 94 rfl (by norm_num [CEILING_SAFETY_LIMIT_C])).2.2

theorem lockout_latch_poll (s : SaunaState) (now bench : ℚ) (ceiling : Option ℚ)
    (h : s.lockout_active = true) :
    (runLoopIter s now bench ceiling).lockout_active = true ∧
    (runLoopIter s now bench ceiling).heater_on = false := by
  by_cases hb : bench ≥ MAX_TEMP_C
  · rw [runLoopIter_trip_bench s now bench ceiling hb]
    obtain ⟨f1, f2, f3, f4, f5, f6, f7, f8, f9, f10, f11, f12⟩ :=
      timerPhase_frame (lockoutMaxTemp (updateReadings s now bench ceiling) now)
    obtain ⟨g1, g2, g3, g4, g5, g6, g7, g8⟩ :=
      lockoutMaxTemp_spec (updateReadings s now bench ceiling) now
    exact ⟨by rw [f4, g3], by rw [f1, g1]⟩
  · by_cases hc : ceilingTrip ceiling = true
    · rw [runLoopIter_trip_ceiling s now bench ceiling hb hc]
      obtain ⟨f1, f2, f3, f4, f5, f6, f7, f8, f9, f10, f11, f12⟩ :=
        timerPhase_frame (lockoutCeilingOvertemp (updateReadings s now bench ceiling) now)
      obtain ⟨g1, g2, g3, g4, g5, g6, g7, g8⟩ :=
        lockoutCeilingOvertemp_spec (updateReadings s now bench ceiling) now
      exact ⟨by rw [f4, g3], by rw [f1, g1]⟩
    · have hc' : ceilingTrip ceiling = false := by simp at hc; exact hc
      rw [runLoopIter_normal s now bench ceiling hb hc']
      set s0 := updateReadings s now bench ceiling with hs0
      have hs0lock : s0.lockout_active = true := h
      obtain ⟨p1, p2, p3, p4, p5, p6, p7, p8, p9, p10⟩ :=
        schedulerPhase_fst_frame s0 now bench s.desired_temp s.heater_enabled
      set sa := (schedulerPhase s0 now bench s.desired_temp s.heater_enabled).1 with hsa
      have hsalock : sa.lockout_active = true := by rw [p1]; exact hs0lock
      rw [maxOnTimePhase_locked sa now hsalock]
      set sc := expiryPhase sa now with hsc
      have hsclock : sc.lockout_active = true := expiryPhase_lockout_mono sa now hsalock
      obtain ⟨b1, b2, b3, b4, b5, b6, b7, b8, b9, b10⟩ :=
        bangBangPhase_frame sc now bench ceiling s.desired_temp
          (schedulerPhase s0 now bench s.desired_temp s.heater_enabled).2
      obtain ⟨bb1, bb2⟩ := bangBangPhase_inactive sc now bench ceiling s.desired_temp
        (schedulerPhase s0 now bench s.desired_temp s.heater_enabled).2
        (Or.inl hsclock)
      set sd := bangBangPhase sc now bench ceiling s.desired_temp
        (schedulerPhase s0 now bench s.desired_temp s.heater_enabled).2 with hsd
      obtain ⟨r1, r2, r3, r4, r5, r6, r7, r8, r9, r10⟩ :=
        ratePhase_frame sd now bench s.desired_temp
      obtain ⟨t1, t2, t3, t4, t5, t6, t7, t8, t9, t10, t11, t12⟩ :=
        timerPhase_frame (ratePhase sd now bench s.desired_temp)
      constructor
      · rw [t4, r4, b1]; exact hsclock
      · rw [t1, r1]; exact bb1

theorem foldPolls_cons (s : SaunaState) (p : ℚ × ℚ × Option ℚ)
    (ps : List (ℚ × ℚ × Option ℚ)) :
    foldPolls s (p :: ps) = foldPolls (runLoopIter s p.1 p.2.1 p.2.2) ps := rfl

theorem foldPolls_lockout (s : SaunaState) (polls : List (ℚ × ℚ × Option ℚ))
    (h : s.lockout_active = true) :
    (foldPolls s polls).lockout_active = true := by
  induction polls generalizing s with
  | nil => exact h
  | cons p ps ih =>
      rw [foldPolls_cons]
      exact ih _ (lockout_latch_poll s p.1 p.2.1 p.2.2 h).1

theorem foldPolls_heater_off (s : SaunaState) (polls : List (ℚ × ℚ × Option ℚ))
    (h : s.lockout_active = true) (hne : polls ≠ []) :
    (foldPolls s polls).heater_on = false := by
  induction polls generalizing s with
  | nil => exact absurd rfl hne
  | cons p ps ih =>
      rw [foldPolls_cons]
      rcases ps with _ | ⟨q, qs⟩
      · exact (lockout_latch_poll s p.1 p.2.1 p.2.2 h).2
      · exact ih _ (lockout_latch_poll s p.1 p.2.1 p.2.2 h).1 (by simp)

theorem setHeaterEnabled_false_spec (s : SaunaState) (now : ℚ) :
    (setHeaterEnabled s false now).lockout_active = false ∧
    (setHeaterEnabled s false now).lockout_reason = none ∧
    (setHeaterEnabled s false now).confirmation_required = false ∧
    (setHeaterEnabled s false now).confirmation_deadline = none ∧
    (setHeaterEnabled s false now).heater_on = false ∧
    (setHeaterEnabled s false now).heater_on_since = none ∧
    (setHeaterEnabled s false now).heater_enabled = false := by
  unfold setHeaterEnabled setRelay; simp

/-- C2: once lockout_active is true, every control-loop poll leaves it true
and leaves the relay off (so it is off on that same and all subsequent
polls); set_heater_enabled(false) clears lockout_active, lockout_reason,
confirmation_required and confirmation_deadline and forces the relay off;
and no operation other than set_heater_enabled(false) — in particular no
control-loop poll — ever clears lockout_active. -/
theorem claim_C2_lockout_latch (s : SaunaState) (h : s.lockout_active = true) :
    (∀ polls, (foldPolls s polls).lockout_active = true) ∧
    (∀ polls, polls ≠ [] → (foldPolls s polls).heater_on = false) ∧
    (∀ now, (setHeaterEnabled s false now).lockout_active = false ∧
      (setHeaterEnabled s false now).lockout_reason = none ∧
      (setHeaterEnabled s false now).confirmation_required = false ∧
      (setHeaterEnabled s false now).confirmation_deadline = none ∧
      (setHeaterEnabled s false now).heater_on = false) ∧
    (∀ op, (applyOp op s).lockout_active = false →
      ∃ now, op = Op.setHeaterEnabledOp false now) := by
  refine ⟨fun polls => foldPolls_lockout s polls h,
    fun polls hne => foldPolls_heater_off s polls h hne,
    fun now => ⟨(setHeaterEnabled_false_spec s now).1,
      (setHeaterEnabled_false_spec s now).2.1,
      (setHeaterEnabled_false_spec s now).2.2.1,
      (setHeaterEnabled_false_spec s now).2.2.2.1,
      (setHeaterEnabled_false_spec s now).2.2.2.2.1⟩, ?_⟩
  intro op hop
  cases op with
  | pollOp now bench ceiling =>
      exact absurd (lockout_latch_poll s now bench ceiling h).1 (by simp [applyOp] at hop; simp [hop])
  | setHeaterEnabledOp e now =>
      cases e with
      | true =>
          exfalso
          simp only [applyOp, setHeaterEnabled, if_pos rfl] at hop
          rw [h] at hop; exact Bool.true_eq_false.mp hop
      | false => exact ⟨now, rfl⟩
  | setDesiredTemperatureOp temp =>
      exfalso; simp only [applyOp, setDesiredTemperature] at hop
      rw [h] at hop; exact Bool.true_eq_false.mp hop
  | toggleUnitsOp =>
      exfalso; simp only [applyOp, toggleUnits] at hop
      rw [h] at hop; exact Bool.true_eq_false.mp hop
  | setScheduleOp t =>
      exfalso; simp only [applyOp, setSchedule] at hop
      rw [h] at hop; exact Bool.true_eq_false.mp hop
  | setCostConfigOp p q =>
      exfalso; simp only [applyOp, setCostConfig] at hop
      rw [h] at hop; exact Bool.true_eq_false.mp hop
  | timerSetModeOp m =>
      exfalso; simp only [applyOp, timerSetMode] at hop
      split_ifs at hop <;> (rw [h] at hop; exact Bool.true_eq_false.mp hop)
  | timerSetDurationOp m =>
      exfalso; simp only [applyOp, timerSetDurationMinutes] at hop
      split_ifs at hop <;> (rw [h] at hop; exact Bool.true_eq_false.mp hop)
  | timerStartOp now =>
      exfalso; simp only [applyOp, timerStart] at hop
      split_ifs at hop <;> (rw [h] at hop; exact Bool.true_eq_false.mp hop)
  | timerStopOp now =>
      exfalso; simp only [applyOp, timerStop] at hop
      rcases hts : s.timer_start_ts with _ | t0 <;> simp only [hts] at hop <;>
        (try split_ifs at hop) <;> (rw [h] at hop; exact Bool.true_eq_false.mp hop)
  | timerResetOp =>
      exfalso; simp only [applyOp, timerReset] at hop
      rw [h] at hop; exact Bool.true_eq_false.mp hop

/-- C2 witness: a locked-out state stays locked out and off across a poll,
and disabling clears the lockout. -/
theorem claim_C2_lockout_latch_witness :
    ({ initState with lockout_active := true } : SaunaState).lockout_active = true ∧
    (foldPolls { initState with lockout_active := true } [(0, 50, none)]).lockout_active = true ∧
    (foldPolls { initState with lockout_active := true } [(0, 50, none)]).heater_on = false ∧
    (setHeaterEnabled { initState with lockout_active := true } false 0).lockout_active = false := by
  refine ⟨rfl, ?_, ?_, ?_⟩
  · exact (claim_C2_lockout_latch _ rfl).1 [(0, 50, none)]
  · exact (claim_C2_lockout_latch _ rfl).2.1 [(0, 50, none)] (by simp)
  · exact ((claim_C2_lockout_latch _ rfl).2.2.1 0).1

theorem loop_expiry_spec (s : SaunaState) (now bench d : ℚ) (ceiling : Option ℚ)
    (h1 : bench < MAX_TEMP_C) (h2 : ceilingTrip ceiling = false)
    (h3 : s.confirmation_required = true)
    (h4 : s.confirmation_deadline = some d)
    (h5 : now ≥ d) :
    (runLoopIter s now bench ceiling).heater_on = false ∧
    (runLoopIter s now bench ceiling).heater_enabled = false ∧
    (runLoopIter s now bench ceiling).confirmation_required = false ∧
    (runLoopIter s now bench ceiling).confirmation_deadline = none ∧
    (runLoopIter s now bench ceiling).lockout_active = true ∧
    (runLoopIter s now bench ceiling).lockout_reason = some "max_on_time" := by
  rw [runLoopIter_normal s now bench ceiling (not_le.mpr h1) h2]
  set s0 := updateReadings s now bench ceiling with hs0
  obtain ⟨p1, p2, p3, p4, p5, p6, p7, p8, p9, p10⟩ :=
    schedulerPhase_fst_frame s0 now bench s.desired_temp s.heater_enabled
  set sa := (schedulerPhase s0 now bench s.desired_temp s.heater_enabled).1 with hsa
  have hacr : sa.confirmation_required = true := by rw [p3]; exact h3
  have hacd : sa.confirmation_deadline = some d := by rw [p4]; exact h4
  rw [maxOnTimePhase_confreq sa now hacr]
  obtain ⟨e1, e2, e3, e4, e5, e6, e7, e8, e9, e10⟩ :=
    expiryPhase_fire sa now d hacr hacd h5
  set sc := expiryPhase sa now with hsc
  obtain ⟨bb1, bb2⟩ := bangBangPhase_inactive sc now bench ceiling s.desired_temp
    (schedulerPhase s0 now bench s.desired_temp s.heater_enabled).2 (Or.inl e6)
  obtain ⟨b1, b2, b3, b4, b5, b6, b7, b8, b9, b10⟩ :=
    bangBangPhase_frame sc now bench ceiling s.desired_temp
      (schedulerPhase s0 now bench s.desired_temp s.heater_enabled).2
  set sd := bangBangPhase sc now bench ceiling s.desired_temp
    (schedulerPhase s0 now bench s.desired_temp s.heater_enabled).2 with hsd
  have hdsince : sd.heater_on_since = none := by
    rw [bb2, if_neg (by rw [e1]; exact Bool.false_ne_true), e2]
  rw [ratePhase_since_none sd now bench s.desired_temp hdsince]
  obtain ⟨t1, t2, t3, t4, t5, t6, t7, t8, t9, t10, t11, t12⟩ := timerPhase_frame sd
  exact ⟨by rw [t1]; exact bb1,
    by rw [t3, b5]; exact e3,
    by rw [t6, b3]; exact e4,
    by rw [t7, b4]; exact e5,
    by rw [t4, b1]; exact e6,
    by rw [t5, b2]; exact e7⟩

/-- C3: on a poll with no overtemperature trip, a pending confirmation
window whose deadline has passed forces the relay off, clears
heater_enabled and the confirmation fields, and enters lockout with
reason "max_on_time". -/
theorem claim_C3_confirmation_expiry (s : SaunaState) (now bench d : ℚ)
    (ceiling : Option ℚ)
    (h1 : bench < MAX_TEMP_C) (h2 : ceilingTrip ceiling = false)
    (h3 : s.confirmation_required = true)
    (h4 : s.confirmation_deadline = some d)
    (h5 : now ≥ d) :
    (runLoopIter s now bench ceiling).heater_on = false ∧
    (runLoopIter s now bench ceiling).heater_enabled = false ∧
    (runLoopIter s now bench ceiling).confirmation_required = false ∧
    (runLoopIter s now bench ceiling).confirmation_deadline = none ∧
    (runLoopIter s now bench ceiling).lockout_active = true ∧
    (runLoopIter s now bench ceiling).lockout_reason = some "max_on_time" :=
  loop_expiry_spec s now bench d ceiling h1 h2 h3 h4 h5


/-- C3 witness: a concrete expired confirmation window trips the
max-on-time lockout. -/
theorem claim_C3_confirmation_expiry_witness :
    (50 : ℚ) < MAX_TEMP_C ∧
    expiredConfState.confirmation_required = true ∧
    (20 : ℚ) ≥ (10 : ℚ) ∧
    (runLoopIter expiredConfState 20 50 none).lockout_reason = some "max_on_time" ∧
    (runLoopIter expiredConfState 20 50 none).heater_enabled = false := by
  refine ⟨by norm_num [MAX_TEMP_C], rfl, by norm_num, ?_, ?_⟩
  · exact (claim_C3_confirmation_expiry expiredConfState 20 50 10 none
      (by norm_num [MAX_TEMP_C]) rfl rfl rfl (by norm_num)).2.2.2.2.2
  · exact (claim_C3_confirmation_expiry expiredConfState 20 50 10 none
      (by norm_num [MAX_TEMP_C]) rfl rfl rfl (by norm_num)).2.1

theorem bang_on_off_exclusive (bench desired : ℚ) (ceiling : Option ℚ)
    (hoff : bench > desired + HYSTERESIS ∨ ceilingTooHot ceiling = true) :
    ¬ (bench < desired - HYSTERESIS ∧ ceilingSafe ceiling = true) := by
  rintro ⟨hb, hsafe⟩
  rcases hoff with hb2 | hth
  · have hh : HYSTERESIS ≥ 0 := by norm_num [HYSTERESIS]
    linarith
  · rcases ceiling with _ | c
    · simp [ceilingTooHot] at hth
    · simp [ceilingTooHot] at hth
      simp [ceilingSafe] at hsafe
      linarith


/-- C4 counterexample: with bench 80 (above desired 70 + hysteresis), a
poll at the moment the max-on-time threshold is reached does open the
confirmation window, but the relay does NOT keep its previous state on
that same cycle: the bang-bang block still runs and switches it off. -/
theorem claim_C4_counterexample :
    longOnState.lockout_active = false ∧
    longOnState.confirmation_required = false ∧
    longOnState.heater_on = true ∧
    longOnState.heater_on_since = some 0 ∧
    (80 : ℚ) < MAX_TEMP_C ∧
    (7200 : ℚ) - 0 ≥ MAX_ON_TIME_SEC ∧
    (runLoopIter longOnState 7200 80 none).confirmation_required = true ∧
    (runLoopIter longOnState 7200 80 none).confirmation_deadline = some 7290 ∧
    (runLoopIter longOnState 7200 80 none).heater_on = false := by
  refine ⟨rfl, rfl, rfl, rfl, by norm_num [MAX_TEMP_C], by norm_num [MAX_ON_TIME_SEC], ?_⟩
  norm_num [runLoopIter, updateReadings, schedulerPhase, maxOnTimePhase, expiryPhase,
    bangBangPhase, ratePhase, timerPhase, setRelay, lockoutMaxTemp, lockoutCeilingOvertemp,
    ceilingTrip, ceilingSafe, ceilingTooHot, requiredHeatTime, longOnState, initState,
    HYSTERESIS, MAX_TEMP_C, MAX_ON_TIME_SEC, CONFIRMATION_TIMEOUT_SEC,
    CONTROL_INTERVAL_SEC, CEILING_SAFETY_LIMIT_C]

/-- C4 amended: on a poll with no overtemperature trip, lockout inactive,
confirmation not yet required, heater enabled and continuously on for at
least MAX_ON_TIME_SEC, the confirmation window opens with deadline
now + CONFIRMATION_TIMEOUT_SEC; the confirmation transition itself leaves
the relay alone, but the bang-bang block still runs on the same cycle, so
the relay stays on exactly when its off condition (bench above
desired + HYSTERESIS, or ceiling at or above the ceiling limit minus
HYSTERESIS) does not hold, and otherwise switches off. -/
theorem claim_C4_amended_confirmation_entry (s : SaunaState) (now bench t0 : ℚ)
    (ceiling : Option ℚ)
    (h1 : bench < MAX_TEMP_C) (h2 : ceilingTrip ceiling = false)
    (h3 : s.lockout_active = false) (h4 : s.confirmation_required = false)
    (h5 : s.heater_on_since = some t0) (h6 : now - t0 ≥ MAX_ON_TIME_SEC)
    (h7 : s.heater_on = true) (h8 : s.heater_enabled = true) :
    (runLoopIter s now bench ceiling).confirmation_required = true ∧
    (runLoopIter s now bench ceiling).confirmation_deadline =
      some (now + CONFIRMATION_TIMEOUT_SEC) ∧
    (runLoopIter s now bench ceiling).heater_on =
      (if bench > s.desired_temp + HYSTERESIS ∨ ceilingTooHot ceiling = true
       then false else true) := by
  rw [runLoopIter_normal s now bench ceiling (not_le.mpr h1) h2, h8]
  set s0 := updateReadings s now bench ceiling with hs0
  obtain ⟨p1, p2, p3, p4, p5, p6, p7, p8, p9, p10⟩ :=
    schedulerPhase_fst_frame s0 now bench s.desired_temp true
  set sa := (schedulerPhase s0 now bench s.desired_temp true).1 with hsa
  have hasince : sa.heater_on_since = some t0 := by rw [p6]; exact h5
  have hacr : sa.confirmation_required = false := by rw [p3]; exact h4
  have halock : sa.lockout_active = false := by rw [p1]; exact h3
  rw [schedulerPhase_snd_true s0 now bench s.desired_temp,
    maxOnTimePhase_fire sa now t0 hasince h6 hacr halock]
  set sb : SaunaState := { sa with confirmation_required := true, confirmation_deadline := some (now + CONFIRMATION_TIMEOUT_SEC) } with hsb
  have hexp : expiryPhase sb now = sb := by
    apply expiryPhase_nofire
    intro d' hd' _
    have hd'' : d' = now + CONFIRMATION_TIMEOUT_SEC := by
      have : sb.confirmation_deadline = some (now + CONFIRMATION_TIMEOUT_SEC) := rfl
      rw [this] at hd'; exact (Option.some_inj.mp hd').symm
    rw [hd'']
    norm_num [CONFIRMATION_TIMEOUT_SEC]
  rw [hexp]
  have hblock : sb.lockout_active = false := halock
  obtain ⟨b1, b2, b3, b4, b5, b6, b7, b8, b9, b10⟩ :=
    bangBangPhase_frame sb now bench ceiling s.desired_temp true
  obtain ⟨r1, r2, r3, r4, r5, r6, r7, r8, r9, r10⟩ :=
    ratePhase_frame (bangBangPhase sb now bench ceiling s.desired_temp true)
      now bench s.desired_temp
  obtain ⟨t1, t2, t3, t4, t5, t6, t7, t8, t9, t10, t11, t12⟩ :=
    timerPhase_frame (ratePhase (bangBangPhase sb now bench ceiling s.desired_temp true)
      now bench s.desired_temp)
  refine ⟨by rw [t6, r6, b3], by rw [t7, r7, b4], ?_⟩
  rw [t1, r1, bangBangPhase_active sb now bench ceiling s.desired_temp hblock]
  have hbon : sb.heater_on = true := by
    show sa.heater_on = true
    rw [p5]; exact h7
  rw [hbon]
  by_cases hoff : bench > s.desired_temp + HYSTERESIS ∨ ceilingTooHot ceiling = true
  · rw [if_neg (bang_on_off_exclusive bench s.desired_temp ceiling hoff)]
  · rw [if_neg hoff]
    split_ifs <;> rfl

/-- C4 amended witness: with bench inside the dead-band the window opens
and the relay stays on. -/
theorem claim_C4_amended_confirmation_entry_witness :
    (70 : ℚ) < MAX_TEMP_C ∧ (7200 : ℚ) - 0 ≥ MAX_ON_TIME_SEC ∧
    (runLoopIter longOnState 7200 70 none).confirmation_required = true ∧
    (runLoopIter longOnState 7200 70 none).heater_on =
      (if (70 : ℚ) > longOnState.desired_temp + HYSTERESIS ∨ ceilingTooHot none = true
       then false else true) := by
  refine ⟨by norm_num [MAX_TEMP_C], by norm_num [MAX_ON_TIME_SEC], ?_, ?_⟩
  · exact (claim_C4_amended_confirmation_entry longOnState 7200 70 0 none
      (by norm_num [MAX_TEMP_C]) rfl rfl rfl rfl (by norm_num [MAX_ON_TIME_SEC])
      rfl rfl).1
  · exact (claim_C4_amended_confirmation_entry longOnState 7200 70 0 none
      (by norm_num [MAX_TEMP_C]) rfl rfl rfl rfl (by norm_num [MAX_ON_TIME_SEC])
      rfl rfl).2.2

/-- C5: on a poll with no overtemperature trip, with lockout inactive,
heater enabled, and no max-on-time or confirmation-expiry transition
firing, the relay is driven by the dual-sensor bang-bang rule: on iff
bench below desired - HYSTERESIS with the ceiling safe, off iff bench
above desired + HYSTERESIS or the ceiling at or above the ceiling limit
minus HYSTERESIS, and otherwise (the dead-band) it holds its previous
state. -/
theorem claim_C5_bang_bang (s : SaunaState) (now bench : ℚ) (ceiling : Option ℚ)
    (h1 : bench < MAX_TEMP_C)
    (h2 : ceilingTrip ceiling = false)
    (h3 : s.lockout_active = false)
    (h4 : s.heater_enabled = true)
    (h5 : ∀ t0, s.heater_on_since = some t0 → s.confirmation_required = false →
      now - t0 < MAX_ON_TIME_SEC)
    (h6 : ∀ d, s.confirmation_deadline = some d → s.confirmation_required = true →
      now < d) :
    (runLoopIter s now bench ceiling).heater_on =
      (if bench < s.desired_temp - HYSTERESIS ∧ ceilingSafe ceiling = true then true
       else if bench > s.desired_temp + HYSTERESIS ∨ ceilingTooHot ceiling = true
       then false
       else s.heater_on) := by
  rw [runLoopIter_normal s now bench ceiling (not_le.mpr h1) h2, h4]
  set s0 := updateReadings s now bench ceiling with hs0
  obtain ⟨p1, p2, p3, p4, p5, p6, p7, p8, p9, p10⟩ :=
    schedulerPhase_fst_frame s0 now bench s.desired_temp true
  set sa := (schedulerPhase s0 now bench s.desired_temp true).1 with hsa
  have hmot : maxOnTimePhase sa now = sa := by
    apply maxOnTimePhase_nofire
    intro t0 ht hc
    rw [p6] at ht
    rw [p3] at hc
    exact not_le.mpr (h5 t0 ht hc)
  have hexp : expiryPhase sa now = sa := by
    apply expiryPhase_nofire
    intro d hd hc
    rw [p4] at hd
    rw [p3] at hc
    exact not_le.mpr (h6 d hd hc)
  rw [schedulerPhase_snd_true s0 now bench s.desired_temp, hmot, hexp]
  have halock : sa.lockout_active = false := by rw [p1]; exact h3
  obtain ⟨r1, r2, r3, r4, r5, r6, r7, r8, r9, r10⟩ :=
    ratePhase_frame (bangBangPhase sa now bench ceiling s.desired_temp true)
      now bench s.desired_temp
  obtain ⟨t1, t2, t3, t4, t5, t6, t7, t8, t9, t10, t11, t12⟩ :=
    timerPhase_frame (ratePhase (bangBangPhase sa now bench ceiling s.desired_temp true)
      now bench s.desired_temp)
  rw [t1, r1, bangBangPhase_active sa now bench ceiling s.desired_temp halock, p5]
  rfl


/-- C5 witness: a cold bench with no ceiling sensor turns the relay on. -/
theorem claim_C5_bang_bang_witness :
    (50 : ℚ) < MAX_TEMP_C ∧ ceilingTrip none = false ∧
    enabledState.lockout_active = false ∧ enabledState.heater_enabled = true ∧
    (runLoopIter enabledState 0 50 none).heater_on =
      (if (50 : ℚ) < enabledState.desired_temp - HYSTERESIS ∧ ceilingSafe none = true
       then true
       else if (50 : ℚ) > enabledState.desired_temp + HYSTERESIS ∨ ceilingTooHot none = true
       then false
       else enabledState.heater_on) := by
  refine ⟨by norm_num [MAX_TEMP_C], rfl, rfl, rfl, ?_⟩
  exact claim_C5_bang_bang enabledState 0 50 none (by norm_num [MAX_TEMP_C]) rfl rfl rfl
    (by intro t0 ht hc; simp [enabledState, initState] at ht)
    (by intro d hd hc; simp [enabledState, initState] at hd)





set_option maxHeartbeats 2000000 in
theorem stateA_eval : stateA =
    { current_temp := 50
      ceiling_temp := none
      desired_temp := 70
      heater_enabled := true
      heater_on := true
      heater_on_since := some 0
      time_to_setpoint := none
      last_updated := some 0
      use_imperial := true
      lockout_active := false
      lockout_reason := none
      confirmation_required := false
      confirmation_deadline := none
      scheduled_start_at := none
      avg_heatup_rate_c_per_sec := none
      price_per_kwh := none
      heater_power_kw := none
      timer_mode := "stopwatch"
      timer_running := false
      timer_start_ts := none
      timer_elapsed := 0
      timer_duration := none } := by
  norm_num [stateA, setHeaterEnabled, runLoopIter, updateReadings, schedulerPhase,
    maxOnTimePhase, expiryPhase, bangBangPhase, ratePhase, timerPhase, setRelay,
    lockoutMaxTemp, lockoutCeilingOvertemp, ceilingTrip, ceilingSafe, ceilingTooHot,
    requiredHeatTime, initState, HYSTERESIS, MAX_TEMP_C, MAX_ON_TIME_SEC,
    CONFIRMATION_TIMEOUT_SEC, CONTROL_INTERVAL_SEC, CEILING_SAFETY_LIMIT_C,
    Option.some_ne_none]

set_option maxHeartbeats 2000000 in
theorem stateB_eval : stateB =
    { current_temp := 70
      ceiling_temp := none
      desired_temp := 70
      heater_enabled := true
      heater_on := true
      heater_on_since := some 0
      time_to_setpoint := some 10
      last_updated := some 10
      use_imperial := true
      lockout_active := false
      lockout_reason := none
      confirmation_required := false
      confirmation_deadline := none
      scheduled_start_at := none
      avg_heatup_rate_c_per_sec := some (1/2)
      price_per_kwh := none
      heater_power_kw := none
      timer_mode := "stopwatch"
      timer_running := false
      timer_start_ts := none
      timer_elapsed := 0
      timer_duration := none } := by
  norm_num [stateB, stateA_eval, runLoopIter, updateReadings, schedulerPhase,
    maxOnTimePhase, expiryPhase, bangBangPhase, ratePhase, timerPhase, setRelay,
    lockoutMaxTemp, lockoutCeilingOvertemp, ceilingTrip, ceilingSafe, ceilingTooHot,
    requiredHeatTime, initState, HYSTERESIS, MAX_TEMP_C, MAX_ON_TIME_SEC,
    CONFIRMATION_TIMEOUT_SEC, CONTROL_INTERVAL_SEC, CEILING_SAFETY_LIMIT_C,
    Option.some_ne_none]

set_option maxHeartbeats 2000000 in
theorem stateC_eval : stateC =
    { current_temp := 70
      ceiling_temp := none
      desired_temp := 70
      heater_enabled := true
      heater_on := true
      heater_on_since := some 0
      time_to_setpoint := some 10
      last_updated := some 7200
      use_imperial := true
      lockout_active := false
      lockout_reason := none
      confirmation_required := true
      confirmation_deadline := some 7290
      scheduled_start_at := none
      avg_heatup_rate_c_per_sec := some (1681/4800)
      price_per_kwh := none
      heater_power_kw := none
      timer_mode := "stopwatch"
      timer_running := false
      timer_start_ts := none
      timer_elapsed := 0
      timer_duration := none } := by
  norm_num [stateC, stateB_eval, runLoopIter, updateReadings, schedulerPhase,
    maxOnTimePhase, expiryPhase, bangBangPhase, ratePhase, timerPhase, setRelay,
    lockoutMaxTemp, lockoutCeilingOvertemp, ceilingTrip, ceilingSafe, ceilingTooHot,
    requiredHeatTime, initState, HYSTERESIS, MAX_TEMP_C, MAX_ON_TIME_SEC,
    CONFIRMATION_TIMEOUT_SEC, CONTROL_INTERVAL_SEC, CEILING_SAFETY_LIMIT_C,
    Option.some_ne_none]

set_option maxHeartbeats 2000000 in
theorem stateD_eval : stateD =
    { current_temp := 91
      ceiling_temp := none
      desired_temp := 70
      heater_enabled := true
      heater_on := false
      heater_on_since := none
      time_to_setpoint := some 10
      last_updated := some 7202
      use_imperial := true
      lockout_active := true
      lockout_reason := some "max_temp"
      confirmation_required := true
      confirmation_deadline := some 7290
      scheduled_start_at := none
      avg_heatup_rate_c_per_sec := some (1681/4800)
      price_per_kwh := none
      heater_power_kw := none
      timer_mode := "stopwatch"
      timer_running := false
      timer_start_ts := none
      timer_elapsed := 0
      timer_duration := none } := by
  norm_num [stateD, stateC_eval, runLoopIter, updateReadings, schedulerPhase,
    maxOnTimePhase, expiryPhase, bangBangPhase, ratePhase, timerPhase, setRelay,
    lockoutMaxTemp, lockoutCeilingOvertemp, ceilingTrip, ceilingSafe, ceilingTooHot,
    requiredHeatTime, initState, HYSTERESIS, MAX_TEMP_C, MAX_ON_TIME_SEC,
    CONFIRMATION_TIMEOUT_SEC, CONTROL_INTERVAL_SEC, CEILING_SAFETY_LIMIT_C,
    Option.some_ne_none]

/-- C6 counterexample: in the reachable state stateD (overtemperature trip
during a pending confirmation window) lockout_active and
confirmation_required are BOTH true and the deadline is still set, so the
claimed invariant (lockout implies confirmation cleared) fails. -/
theorem claim_C6_counterexample :
    stateD.lockout_active = true ∧
    stateD.confirmation_required = true ∧
    stateD.confirmation_deadline = some 7290 ∧
    stateD.lockout_reason = some "max_temp" := by
  rw [stateD_eval]
  exact ⟨rfl, rfl, rfl, rfl⟩

/-- C6 amended: lockout entered through the confirmation-window expiry
does clear confirmation_required and confirmation_deadline, but a bench or
ceiling overtemperature trip sets lockout_active while leaving both
confirmation fields unchanged, so lockout_active = true with
confirmation_required = true is reachable and the claimed invariant does
not hold in every reachable state. -/
theorem claim_C6_amended_lockout_confirmation (s : SaunaState) (now bench d : ℚ)
    (ceiling : Option ℚ) :
    (bench < MAX_TEMP_C → ceilingTrip ceiling = false →
      s.confirmation_required = true → s.confirmation_deadline = some d → now ≥ d →
      (runLoopIter s now bench ceiling).confirmation_required = false ∧
      (runLoopIter s now bench ceiling).confirmation_deadline = none ∧
      (runLoopIter s now bench ceiling).lockout_active = true) ∧
    (bench ≥ MAX_TEMP_C →
      (runLoopIter s now bench ceiling).confirmation_required = s.confirmation_required ∧
      (runLoopIter s now bench ceiling).confirmation_deadline = s.confirmation_deadline ∧
      (runLoopIter s now bench ceiling).lockout_active = true) ∧
    (bench < MAX_TEMP_C → ceilingTrip ceiling = true →
      (runLoopIter s now bench ceiling).confirmation_required = s.confirmation_required ∧
      (runLoopIter s now bench ceiling).confirmation_deadline = s.confirmation_deadline ∧
      (runLoopIter s now bench ceiling).lockout_active = true) := by
  refine ⟨?_, ?_, ?_⟩
  · intro h1 h2 h3 h4 h5
    obtain ⟨c1, c2, c3, c4, c5, c6⟩ := loop_expiry_spec s now bench d ceiling h1 h2 h3 h4 h5
    exact ⟨c3, c4, c5⟩
  · intro h
    rw [runLoopIter_trip_bench s now bench ceiling h]
    obtain ⟨f1, f2, f3, f4, f5, f6, f7, f8, f9, f10, f11, f12⟩ :=
      timerPhase_frame (lockoutMaxTemp (updateReadings s now bench ceiling) now)
    obtain ⟨g1, g2, g3, g4, g5, g6, g7, g8⟩ :=
      lockoutMaxTemp_spec (updateReadings s now bench ceiling) now
    exact ⟨by rw [f6, g5]; rfl, by rw [f7, g6]; rfl, by rw [f4, g3]⟩
  · intro h1 h2
    rw [runLoopIter_trip_ceiling s now bench ceiling (not_le.mpr h1) h2]
    obtain ⟨f1, f2, f3, f4, f5, f6, f7, f8, f9, f10, f11, f12⟩ :=
      timerPhase_frame (lockoutCeilingOvertemp (updateReadings s now bench ceiling) now)
    obtain ⟨g1, g2, g3, g4, g5, g6, g7, g8⟩ :=
      lockoutCeilingOvertemp_spec (updateReadings s now bench ceiling) now
    exact ⟨by rw [f6, g5]; rfl, by rw [f7, g6]; rfl, by rw [f4, g3]⟩

/-- C6 amended witness: a bench trip while a confirmation window is
pending keeps confirmation_required true under the new lockout. -/
theorem claim_C6_amended_lockout_confirmation_witness :
    (91 : ℚ) ≥ MAX_TEMP_C ∧
    expiredConfState.confirmation_required = true ∧
    (runLoopIter expiredConfState 0 91 none).confirmation_required =
      expiredConfState.confirmation_required ∧
    (runLoopIter expiredConfState 0 91 none).lockout_active = true := by
  refine ⟨by norm_num [MAX_TEMP_C], rfl, ?_, ?_⟩
  · exact ((claim_C6_amended_lockout_confirmation expiredConfState 0 91 10 none).2.1
      (by norm_num [MAX_TEMP_C])).1
  · exact ((claim_C6_amended_lockout_confirmation expiredConfState 0 91 10 none).2.1
      (by norm_num [MAX_TEMP_C])).2.2



set_option maxHeartbeats 2000000 in
theorem stateQ_eval : stateQ =
    { current_temp := 70
      ceiling_temp := none
      desired_temp := 70
      heater_enabled := false
      heater_on := false
      heater_on_since := none
      time_to_setpoint := some 10
      last_updated := some 7290
      use_imperial := true
      lockout_active := true
      lockout_reason := some "max_on_time"
      confirmation_required := false
      confirmation_deadline := none
      scheduled_start_at := none
      avg_heatup_rate_c_per_sec := some (1681/4800)
      price_per_kwh := none
      heater_power_kw := none
      timer_mode := "stopwatch"
      timer_running := false
      timer_start_ts := none
      timer_elapsed := 0
      timer_duration := none } := by
  norm_num [stateQ, stateP, setSchedule, stateC_eval, runLoopIter, updateReadings,
    schedulerPhase, maxOnTimePhase, expiryPhase, bangBangPhase, ratePhase, timerPhase,
    setRelay, lockoutMaxTemp, lockoutCeilingOvertemp, ceilingTrip, ceilingSafe,
    ceilingTooHot, requiredHeatTime, initState, HYSTERESIS, MAX_TEMP_C, MAX_ON_TIME_SEC,
    CONFIRMATION_TIMEOUT_SEC, CONTROL_INTERVAL_SEC, CEILING_SAFETY_LIMIT_C,
    Option.some_ne_none]

/-- C7 counterexample: in the reachable state stateP all of the claim's
conditions hold on the poll at t=7290 (no trip, no lockout, pending
schedule 7000, rate 1681/4800, time-until-target at most the required heat
time), yet after the poll heater_enabled is false: the confirmation expiry
on the same poll overrides the scheduler activation. -/
theorem claim_C7_counterexample :
    stateP.lockout_active = false ∧
    stateP.scheduled_start_at = some 7000 ∧
    stateP.avg_heatup_rate_c_per_sec = some (1681/4800) ∧
    (70 : ℚ) < MAX_TEMP_C ∧
    (7000 : ℚ) - 7290 ≤ requiredHeatTime stateP.desired_temp 70 (1681/4800) ∧
    stateQ.heater_enabled = false ∧
    stateQ.scheduled_start_at = none := by
  refine ⟨?_, ?_, ?_, by norm_num [MAX_TEMP_C], ?_, ?_, ?_⟩
  · norm_num [stateP, setSchedule, stateC_eval]
  · norm_num [stateP, setSchedule]
  · norm_num [stateP, setSchedule, stateC_eval]
  · norm_num [requiredHeatTime, stateP, setSchedule, stateC_eval]
  · rw [stateQ_eval]
  · rw [stateQ_eval]

/-- C7 amended: on a poll with no overtemperature trip, lockout inactive,
a pending schedule and a non-null rate, with required_heat_time computed
as max(desired - bench, 0) / rate for positive rate and 0 otherwise, if
scheduled_start_at - now is at most required_heat_time then the scheduler
sets heater_enabled and clears scheduled_start_at, and heater_enabled is
still true at the end of the poll provided no pending confirmation window
has already expired (now before the deadline whenever a window is
pending); the loop never sets scheduled_start_at, so each scheduled value
causes at most one activation. -/
theorem claim_C7_amended_scheduler (s : SaunaState) (now bench tgt rate : ℚ)
    (ceiling : Option ℚ)
    (h1 : bench < MAX_TEMP_C) (h2 : ceilingTrip ceiling = false)
    (h3 : s.lockout_active = false)
    (h4 : s.scheduled_start_at = some tgt)
    (h5 : s.avg_heatup_rate_c_per_sec = some rate)
    (h6 : tgt - now ≤ requiredHeatTime s.desired_temp bench rate)
    (h7 : ∀ d, s.confirmation_deadline = some d → s.confirmation_required = true →
      now < d) :
    (runLoopIter s now bench ceiling).heater_enabled = true ∧
    (runLoopIter s now bench ceiling).scheduled_start_at = none ∧
    (∀ s' (n' b' : ℚ) (c' : Option ℚ), s'.scheduled_start_at = none →
      (runLoopIter s' n' b' c').scheduled_start_at = none) := by
  have hrearm : ∀ s' (n' b' : ℚ) (c' : Option ℚ), s'.scheduled_start_at = none →
      (runLoopIter s' n' b' c').scheduled_start_at = none := by
    intro s' n' b' c' hnone
    by_cases hb : b' ≥ MAX_TEMP_C
    · rw [runLoopIter_trip_bench s' n' b' c' hb]
      obtain ⟨f1, f2, f3, f4, f5, f6, f7, f8, f9, f10, f11, f12⟩ :=
        timerPhase_frame (lockoutMaxTemp (updateReadings s' n' b' c') n')
      obtain ⟨g1, g2, g3, g4, g5, g6, g7, g8⟩ :=
        lockoutMaxTemp_spec (updateReadings s' n' b' c') n'
      rw [f8, g8]; exact hnone
    · by_cases hc : ceilingTrip c' = true
      · rw [runLoopIter_trip_ceiling s' n' b' c' hb hc]
        obtain ⟨f1, f2, f3, f4, f5, f6, f7, f8, f9, f10, f11, f12⟩ :=
          timerPhase_frame (lockoutCeilingOvertemp (updateReadings s' n' b' c') n')
        obtain ⟨g1, g2, g3, g4, g5, g6, g7, g8⟩ :=
          lockoutCeilingOvertemp_spec (updateReadings s' n' b' c') n'
        rw [f8, g8]; exact hnone
      · have hc' : ceilingTrip c' = false := by simp at hc; exact hc
        rw [runLoopIter_normal s' n' b' c' hb hc']
        rw [schedulerPhase_sched_none (updateReadings s' n' b' c') n' b'
          s'.desired_temp s'.heater_enabled hnone]
        obtain ⟨m1, m2, m3, m4, m5, m6, m7, m8, m9, m10⟩ :=
          maxOnTimePhase_frame (updateReadings s' n' b' c') n'
        obtain ⟨e1, e2, e3, e4, e5⟩ :=
          expiryPhase_frame (maxOnTimePhase (updateReadings s' n' b' c') n') n'
        obtain ⟨b1, b2, b3, b4, b5, b6, b7, b8, b9, b10⟩ :=
          bangBangPhase_frame
            (expiryPhase (maxOnTimePhase (updateReadings s' n' b' c') n') n')
            n' b' c' s'.desired_temp s'.heater_enabled
        obtain ⟨r1, r2, r3, r4, r5, r6, r7, r8, r9, r10⟩ :=
          ratePhase_frame
            (bangBangPhase
              (expiryPhase (maxOnTimePhase (updateReadings s' n' b' c') n') n')
              n' b' c' s'.desired_temp s'.heater_enabled)
            n' b' s'.desired_temp
        obtain ⟨t1, t2, t3, t4, t5, t6, t7, t8, t9, t10, t11, t12⟩ :=
          timerPhase_frame
            (ratePhase
              (bangBangPhase
                (expiryPhase (maxOnTimePhase (updateReadings s' n' b' c') n') n')
                n' b' c' s'.desired_temp s'.heater_enabled)
              n' b' s'.desired_temp)
        rw [t8, r8, b6, e1, m6]
        exact hnone
  refine ⟨?_, ?_, hrearm⟩ <;>
  · rw [runLoopIter_normal s now bench ceiling (not_le.mpr h1) h2,
      schedulerPhase_fire (updateReadings s now bench ceiling) now bench
        s.desired_temp s.heater_enabled tgt rate h3 h4 h5 h6]
    set sb : SaunaState := { updateReadings s now bench ceiling with heater_enabled := true, scheduled_start_at := none } with hsb
    obtain ⟨m1, m2, m3, m4, m5, m6, m7, m8, m9, m10⟩ := maxOnTimePhase_frame sb now
    have hexp : expiryPhase (maxOnTimePhase sb now) now = maxOnTimePhase sb now := by
      apply expiryPhase_nofire
      intro d hd hr
      rcases maxOnTimePhase_conf_cases sb now with ⟨hq1, hq2⟩ | ⟨hq1, hq2⟩
      · rw [hq2] at hd
        rw [hq1] at hr
        exact not_le.mpr (h7 d hd hr)
      · rw [hq2] at hd
        have hd' : d = now + CONFIRMATION_TIMEOUT_SEC := (Option.some_inj.mp hd).symm
        rw [hd', ge_iff_le, not_le]
        norm_num [CONFIRMATION_TIMEOUT_SEC]
    rw [hexp]
    obtain ⟨b1, b2, b3, b4, b5, b6, b7, b8, b9, b10⟩ :=
      bangBangPhase_frame (maxOnTimePhase sb now) now bench ceiling s.desired_temp
        (true : Bool)
    obtain ⟨r1, r2, r3, r4, r5, r6, r7, r8, r9, r10⟩ :=
      ratePhase_frame (bangBangPhase (maxOnTimePhase sb now) now bench ceiling
        s.desired_temp true) now bench s.desired_temp
    obtain ⟨t1, t2, t3, t4, t5, t6, t7, t8, t9, t10, t11, t12⟩ :=
      timerPhase_frame (ratePhase (bangBangPhase (maxOnTimePhase sb now) now bench
        ceiling s.desired_temp true) now bench s.desired_temp)
    first
      | (rw [t3, r3, b5, m3])
      | (rw [t8, r8, b6, m6])


/-- C7 amended witness: a due schedule with positive rate enables the
heater and clears the schedule when no confirmation window is pending. -/
theorem claim_C7_amended_scheduler_witness :
    (50 : ℚ) < MAX_TEMP_C ∧
    scheduledState.lockout_active = false ∧
    scheduledState.scheduled_start_at = some 100 ∧
    (100 : ℚ) - 100 ≤ requiredHeatTime scheduledState.desired_temp 50 1 ∧
    (runLoopIter scheduledState 100 50 none).heater_enabled = true ∧
    (runLoopIter scheduledState 100 50 none).scheduled_start_at = none := by
  refine ⟨by norm_num [MAX_TEMP_C], rfl, rfl, by norm_num [requiredHeatTime], ?_, ?_⟩
  · exact (claim_C7_amended_scheduler scheduledState 100 50 100 1 none
      (by norm_num [MAX_TEMP_C]) rfl rfl rfl rfl
      (by norm_num [requiredHeatTime, scheduledState, initState])
      (by intro d hd hr; simp [scheduledState, initState] at hd)).1
  · exact (claim_C7_amended_scheduler scheduledState 100 50 100 1 none
      (by norm_num [MAX_TEMP_C]) rfl rfl rfl rfl
      (by norm_num [requiredHeatTime, scheduledState, initState])
      (by intro d hd hr; simp [scheduledState, initState] at hd)).2.1

/-- C8: the dictionary persisted by _save_state_to_disk_locked holds
exactly the eleven configuration keys, never any of the four safety
fields, and loading any file contents (including a missing or unparseable
file, or one containing the safety keys) at process start leaves
lockout_active, lockout_reason, confirmation_required and
confirmation_deadline at their safe defaults. -/
theorem claim_C8_persistence (s : SaunaState) (file : Option PersistedData) :
    (saveStateToDisk s).map Prod.fst =
      ["desired_temp", "heater_enabled", "use_imperial", "scheduled_start_at",
       "avg_heatup_rate_c_per_sec", "price_per_kwh", "heater_power_kw",
       "timer_mode", "timer_running", "timer_elapsed", "timer_duration"] ∧
    ((saveStateToDisk s).map Prod.fst).contains "lockout_active" = false ∧
    ((saveStateToDisk s).map Prod.fst).contains "lockout_reason" = false ∧
    ((saveStateToDisk s).map Prod.fst).contains "confirmation_required" = false ∧
    ((saveStateToDisk s).map Prod.fst).contains "confirmation_deadline" = false ∧
    (loadStateFromDisk initState file).lockout_active = false ∧
    (loadStateFromDisk initState file).lockout_reason = none ∧
    (loadStateFromDisk initState file).confirmation_required = false ∧
    (loadStateFromDisk initState file).confirmation_deadline = none := by
  refine ⟨rfl, rfl, rfl, rfl, rfl, ?_, ?_, ?_, ?_⟩ <;>
    rcases file with _ | data <;> rfl

/-- C9 counterexample: with the confirmation window pending and the
deadline (10) already in the past at now = 20, the snapshot's remaining
confirmation value is None, whereas the claim demands
max(deadline - now, 0) = 0. -/
theorem claim_C9_counterexample :
    expiredConfState.confirmation_required = true ∧
    expiredConfState.confirmation_deadline = some 10 ∧
    (10 : ℚ) - 20 ≤ 0 ∧
    confirmationRemaining expiredConfState 20 = none ∧
    max ((10 : ℚ) - 20) 0 = 0 := by
  refine ⟨rfl, rfl, by norm_num, ?_, by norm_num⟩
  norm_num [confirmationRemaining, expiredConfState, initState, pyInt]

/-- C9 amended: the snapshot's remaining-confirmation value is None when
confirmation_required is false, None when the window is pending but the
deadline has already passed (not 0), None when the stored deadline is the
falsy float 0.0, and int(deadline - now) (truncation) when the window is
pending with a nonzero deadline strictly in the future. -/
theorem claim_C9_amended_confirmation_remaining (s : SaunaState) (now d : ℚ) :
    (s.confirmation_required = false → confirmationRemaining s now = none) ∧
    (s.confirmation_required = true → s.confirmation_deadline = some d →
      d - now ≤ 0 → confirmationRemaining s now = none) ∧
    (s.confirmation_required = true → s.confirmation_deadline = some 0 →
      confirmationRemaining s now = none) ∧
    (s.confirmation_required = true → s.confirmation_deadline = some d → d ≠ 0 →
      0 < d - now → confirmationRemaining s now = some (pyInt (d - now))) := by
  refine ⟨?_, ?_, ?_, ?_⟩
  · intro h
    rcases hd : s.confirmation_deadline with _ | d' <;>
      simp [confirmationRemaining, hd, h]
  · intro h hdl hle
    have hng : ¬ (d - now > 0) := not_lt.mpr hle
    simp [confirmationRemaining, hdl, h, hng]
  · intro h hdl
    simp [confirmationRemaining, hdl, h]
  · intro h hdl hne hpos
    simp [confirmationRemaining, hdl, h, hne, hpos]

/-- C9 amended witness: concrete pending windows before and after the
deadline, and a disabled window. -/
theorem claim_C9_amended_confirmation_remaining_witness :
    (initState.confirmation_required = false ∧
      confirmationRemaining initState 20 = none) ∧
    (expiredConfState.confirmation_required = true ∧
      expiredConfState.confirmation_deadline = some 10 ∧ (10 : ℚ) - 20 ≤ 0 ∧
      confirmationRemaining expiredConfState 20 = none) ∧
    ((10 : ℚ) ≠ 0 ∧ (0 : ℚ) < 10 - 5 ∧
      confirmationRemaining expiredConfState 5 = some (pyInt (10 - 5))) := by
  refine ⟨⟨rfl, ?_⟩, ⟨rfl, rfl, by norm_num, ?_⟩, ⟨by norm_num, by norm_num, ?_⟩⟩
  · exact (claim_C9_amended_confirmation_remaining initState 20 0).1 rfl
  · exact (claim_C9_amended_confirmation_remaining expiredConfState 20 10).2.1 rfl rfl
      (by norm_num)
  · exact (claim_C9_amended_confirmation_remaining expiredConfState 5 10).2.2.2 rfl rfl
      (by norm_num) (by norm_num)

/-- C10: set_heater_enabled(true) only sets heater_enabled — the whole
resulting state equals the input with just that field set, so
lockout_active, lockout_reason, confirmation_required,
confirmation_deadline, heater_on and heater_on_since are all unchanged and
an active lockout or pending window is not cleared by enabling — while
set_heater_enabled(false) clears the lockout and confirmation fields and
forces the relay off. -/
theorem claim_C10_enable_frame (s : SaunaState) (now : ℚ) :
    setHeaterEnabled s true now = { s with heater_enabled := true } ∧
    (setHeaterEnabled s false now).lockout_active = false ∧
    (setHeaterEnabled s false now).lockout_reason = none ∧
    (setHeaterEnabled s false now).confirmation_required = false ∧
    (setHeaterEnabled s false now).confirmation_deadline = none ∧
    (setHeaterEnabled s false now).heater_on = false ∧
    (setHeaterEnabled s false now).heater_enabled = false := by
  refine ⟨rfl, (setHeaterEnabled_false_spec s now).1,
    (setHeaterEnabled_false_spec s now).2.1,
    (setHeaterEnabled_false_spec s now).2.2.1,
    (setHeaterEnabled_false_spec s now).2.2.2.1,
    (setHeaterEnabled_false_spec s now).2.2.2.2.1,
    (setHeaterEnabled_false_spec s now).2.2.2.2.2.2⟩
